import Mathlib

/-!
Shallow embedding of `src/MonicaHelper.py` (class `Monica` and
`MonicaContactUploadForm`) of the GoogleMonicaSync repository.

Modelling conventions:
* Python dicts with string keys become association lists with unique keys
  (`dict_set` overwrites an existing key, as assignment to a dict does).
* The JSON payload of a successful response (`response.json()['data']`) is a
  record `MData` holding every field the source reads (`id`,
  `complete_name`, `updated_at`, `tags`, nested contact field type); the
  genders endpoint returns a list of `MGender`.
* Each remote interaction is driven by a finite list of `ApiResponse`, the
  stream of responses the server would give to the successive requests of a
  `while True:` loop.  A run ends in `RunOutcome.ok` (the Python method
  returned), `RunOutcome.exn` (it raised), or `RunOutcome.outOfResponses`
  (the supplied stream is exhausted while the loop would issue yet another
  request - the loop is still running).
* Side effects are traced in `MonicaState`: `log` records `self.log.*`
  calls, `db_updates` records `self.database.update(...)` calls,
  `slept` records the `time.sleep(sec)` performed by
  `__is_slow_down_error`, and `api_requests` mirrors `self.api_requests`.
-/

namespace GMSync

/-- A Monica tag, as read by the label filter: `contact_label["name"]`. -/
structure MTag where
  name : String
deriving Repr, DecidableEq, Inhabited

/-- The JSON `data` payload of a successful Monica response, restricted to
the fields `MonicaHelper.py` actually reads: `contact['id']`,
`contact['complete_name']`, `contact['updated_at']`, `contact['tags']`,
`note['id']`, `address['id']`, `contact_field['id']` and
`contact_field['contact_field_type']['type']`. -/
structure MData where
  id : String
  complete_name : String
  updated_at : String
  tags : List MTag
  contact_field_type : String
deriving Repr, DecidableEq, Inhabited

/-- One entry of the `/genders` payload: `gender['type']`, `gender['id']`. -/
structure MGender where
  type : String
  id : Nat
deriving Repr, DecidableEq, Inhabited

/-- A remote response: HTTP status code, optional `Retry-After` header,
the body's `error.message` (read only on non-success), and the body's
`data` (read only on success). -/
structure ApiResponse (α : Type) where
  status_code : Nat
  retry_after : Option Nat
  error_message : String
  data : α
deriving Repr, DecidableEq, Inhabited

/-- `self.label_filter`: a dict with keys `"include"` and `"exclude"`
(Lean keywords, so the fields are named `incl` and `excl`). -/
structure LabelFilter where
  incl : List String
  excl : List String
deriving Repr, DecidableEq, Inhabited

/-- Level of a `self.log.*` call. -/
inductive LogLevel where
  | info
  | warning
  | error
deriving Repr, DecidableEq, Inhabited

/-- One logged line. -/
structure LogEntry where
  level : LogLevel
  msg : String
deriving Repr, DecidableEq, Inhabited

/-- One `self.database.update(...)` call (the keyword arguments
`MonicaHelper.py` passes: `monica_id`, `monica_last_changed`, and
optionally `monica_full_name`). -/
structure DbUpdate where
  monica_id : String
  monica_last_changed : Option String
  monica_full_name : Option String
deriving Repr, DecidableEq, Inhabited

/-- The Python exceptions reachable from the embedded code. -/
inductive PyExn where
  | monicaFetchError (msg : String)
  | internalError (msg : String)
  | typeError (msg : String)
  | keyError (key : String)
  | indexError
deriving Repr, DecidableEq, Inhabited

/-- The mutable state of a `Monica` object plus the traced side effects. -/
structure MonicaState where
  contacts : List MData
  gender_mapping : List (String × Nat)
  updated_contacts : List (String × Bool)
  created_contacts : List (String × Bool)
  deleted_contacts : List (String × Bool)
  api_requests : Nat
  db_updates : List DbUpdate
  log : List LogEntry
  slept : List Nat
deriving Repr, DecidableEq, Inhabited

/-- The state right after `Monica.__init__`. -/
def init_state : MonicaState :=
  { contacts := []
    gender_mapping := []
    updated_contacts := []
    created_contacts := []
    deleted_contacts := []
    api_requests := 0
    db_updates := []
    log := []
    slept := [] }

/-- Result of running one embedded method against a finite response stream. -/
inductive RunOutcome (α β : Type) where
  | ok (value : β) (state : MonicaState) (rest : List (ApiResponse α))
  | exn (e : PyExn) (state : MonicaState) (rest : List (ApiResponse α))
  | outOfResponses (state : MonicaState)
deriving Repr, DecidableEq, Inhabited

/-- The run ended with a normal return. -/
def RunOutcome.is_ok : RunOutcome α β → Bool
  | .ok .. => true
  | _ => false

/-- The run ended with a raised exception. -/
def RunOutcome.is_exn : RunOutcome α β → Bool
  | .exn .. => true
  | _ => false

/-- The run ended with a raised `MonicaFetchError`. -/
def RunOutcome.is_fetch_error : RunOutcome α β → Bool
  | .exn (.monicaFetchError _) _ _ => true
  | _ => false

/-- Final `MonicaState` of a run. -/
def RunOutcome.final_state : RunOutcome α β → MonicaState
  | .ok _ s _ => s
  | .exn _ s _ => s
  | .outOfResponses s => s

/-- Whether `needle` occurs as a contiguous sublist of `haystack`. -/
def char_sublist : List Char → List Char → Bool
  | needle, [] => needle.isEmpty
  | needle, c :: rest => needle.isPrefixOf (c :: rest) || char_sublist needle rest

/-- Python `needle in haystack` on strings (substring containment). -/
def contains_substr (needle haystack : String) : Bool :=
  char_sublist needle.toList haystack.toList

/-- The marker text `__is_slow_down_error` looks for. -/
def slow_down_message : String :=
  "Too many attempts, please slow down the request"

/-- Append one log line. -/
def log_add (s : MonicaState) (level : LogLevel) (msg : String) : MonicaState :=
  { s with log := s.log ++ [⟨level, msg⟩] }

/-- Record one `self.database.update(...)` call. -/
def db_update (s : MonicaState) (u : DbUpdate) : MonicaState :=
  { s with db_updates := s.db_updates ++ [u] }

/-- Python dict assignment `d[k] = v` on an association list with unique
keys: overwrite if the key exists, append otherwise. -/
def dict_set {β : Type} (d : List (String × β)) (k : String) (v : β) :
    List (String × β) :=
  if d.any (fun kv => kv.1 == k) then
    d.map (fun kv => if kv.1 == k then (k, v) else kv)
  else
    d ++ [(k, v)]

/-- Python dict key membership `k in d`. -/
def dict_contains {β : Type} (d : List (String × β)) (k : String) : Bool :=
  d.any (fun kv => kv.1 == k)

/-- A dict built from a list of key/value pairs (a Python dict
comprehension: later pairs with an equal key overwrite earlier ones). -/
def dict_of_pairs {β : Type} (ps : List (String × β)) : List (String × β) :=
  ps.foldl (fun d p => dict_set d p.1 p.2) []

/-- `Monica.__filter_contacts_by_label`: filters a contact list by
include/exclude labels.  `if self.label_filter["include"]:` tests list
truthiness, i.e. non-emptiness. -/
def filter_contacts_by_label (lf : LabelFilter) (contact_list : List MData) :
    List MData :=
  if lf.incl.isEmpty = false then
    contact_list.filter (fun contact =>
      contact.tags.any (fun contact_label => lf.incl.contains contact_label.name)
        && contact.tags.all (fun contact_label =>
             !(lf.excl.contains contact_label.name)))
  else if lf.excl.isEmpty = false then
    contact_list.filter (fun contact =>
      contact.tags.all (fun contact_label =>
        !(lf.excl.contains contact_label.name)))
  else
    contact_list

/-!
The `while True:` request loop shared (textually, as a repeated pattern)
by every api method of `Monica`.  Each method instantiates `ApiOp` with its
success status code, its success-branch state update and return value, its
terminal-branch logging, and the exception it raises on a terminal error
(`none` for `update_career`, whose terminal branch only logs a warning and
falls through to the next loop iteration).
-/

/-- The per-method parameters of the shared request loop. -/
structure ApiOp (α β : Type) where
  success_code : Nat
  on_success : MonicaState → α → MonicaState × β
  on_terminal : MonicaState → String → MonicaState
  terminal_exn : String → Option PyExn

/-- The `while True:` loop body: issue the request (consume one response,
count it), return on success, on a rate-limit error sleep `Retry-After`
seconds and retry (`__is_slow_down_error`; a missing `Retry-After` header
makes `int(None)` raise `TypeError`), otherwise log and either raise or
(for `update_career`) fall through and retry. -/
def run_api_loop (op : ApiOp α β) : MonicaState → List (ApiResponse α) → RunOutcome α β
  | s, [] => .outOfResponses s
  | s, r :: rest =>
    let s1 : MonicaState := { s with api_requests := s.api_requests + 1 }
    if r.status_code == op.success_code then
      let sv := op.on_success s1 r.data
      .ok sv.2 sv.1 rest
    else if contains_substr slow_down_message r.error_message then
      match r.retry_after with
      | some sec => run_api_loop op { s1 with slept := s1.slept ++ [sec] } rest
      | none =>
        .exn (.typeError "int() argument must be a string or a number, not NoneType") s1 rest
    else
      let s2 := op.on_terminal s1 r.error_message
      match op.terminal_exn r.error_message with
      | some e => .exn e s2 rest
      | none => run_api_loop op s2 rest

/-- `Monica.update_statistics`: a contact only counts as updated if it has
not been created during sync. -/
def update_statistics (s : MonicaState) : MonicaState :=
  { s with
    updated_contacts :=
      s.updated_contacts.filter (fun kv => !(dict_contains s.created_contacts kv.1)) }

/-- `Monica.get_gender_mapping`: loop parameters for the `/genders` fetch. -/
def get_gender_mapping_op : ApiOp (List MGender) (List (String × Nat)) where
  success_code := 200
  on_success := fun s genders =>
    let gender_mapping := dict_of_pairs (genders.map (fun gender => (gender.type, gender.id)))
    ({ s with gender_mapping := gender_mapping }, gender_mapping)
  on_terminal := fun s error =>
    log_add s .error ("Failed to fetch genders from Monica: " ++ error)
  terminal_exn := fun _ => some (.monicaFetchError "Error fetching genders from Monica!")

/-- `Monica.get_gender_mapping`: returns the cached dictionary when it is
non-empty (truthy), otherwise fetches `/genders`. -/
def get_gender_mapping (s : MonicaState) (responses : List (ApiResponse (List MGender))) :
    RunOutcome (List MGender) (List (String × Nat)) :=
  if s.gender_mapping.isEmpty = false then
    .ok s.gender_mapping s responses
  else
    run_api_loop get_gender_mapping_op s responses

/-- The fields of the `data` dict that `Monica.update_contact` reads
(`data['first_name']`, `data['last_name']`); the rest of the upload form
is only forwarded as the request body. -/
structure UploadData where
  first_name : String
  last_name : String
deriving Repr, DecidableEq, Inhabited

/-- `Monica.update_contact`: loop parameters. -/
def update_contact_op (monica_id name : String) : ApiOp MData Unit where
  success_code := 200
  on_success := fun s contact =>
    let s := { s with updated_contacts := dict_set s.updated_contacts monica_id true }
    let s := { s with contacts := s.contacts ++ [contact] }
    let s := log_add s .info
      ("'" ++ contact.complete_name ++ "' ('" ++ monica_id ++
        "'): Contact updated successfully")
    let s := db_update s ⟨monica_id, some contact.updated_at, some contact.complete_name⟩
    (s, ())
  on_terminal := fun s error =>
    let s := log_add s .error
      ("'" ++ name ++ "' ('" ++ monica_id ++ "'): Error updating Monica contact: " ++
        error ++ ". Does it exist?")
    log_add s .error "Monica form data: ..."
  terminal_exn := fun _ => some (.monicaFetchError "Error updating Monica contact!")

/-- `Monica.update_contact`: removes the contact from the session cache
(to add it again after the update), then runs the request loop. -/
def update_contact (monica_id : String) (data : UploadData) (s : MonicaState)
    (responses : List (ApiResponse MData)) : RunOutcome MData Unit :=
  let name := data.first_name ++ " " ++ data.last_name
  let s := { s with contacts := s.contacts.filter (fun c => !(c.id == monica_id)) }
  run_api_loop (update_contact_op monica_id name) s responses

/-- `Monica.delete_contact`: loop parameters. -/
def delete_contact_op (monica_id name : String) : ApiOp MData Unit where
  success_code := 200
  on_success := fun s _ =>
    ({ s with
        contacts := s.contacts.filter (fun c => !(c.id == monica_id))
        deleted_contacts := dict_set s.deleted_contacts monica_id true }, ())
  on_terminal := fun s error =>
    log_add s .error
      ("'" ++ name ++ "' ('" ++ monica_id ++ "'): Failed to complete delete request: " ++ error)
  terminal_exn := fun _ => some (.monicaFetchError "Error deleting Monica contact!")

/-- `Monica.delete_contact`. -/
def delete_contact (monica_id name : String) (s : MonicaState)
    (responses : List (ApiResponse MData)) : RunOutcome MData Unit :=
  run_api_loop (delete_contact_op monica_id name) s responses

/-- `Monica.create_contact`: loop parameters (success status is 201). -/
def create_contact_op (reference_id : String) : ApiOp MData MData where
  success_code := 201
  on_success := fun s contact =>
    let s := { s with created_contacts := dict_set s.created_contacts contact.id true }
    let s := { s with contacts := s.contacts ++ [contact] }
    let s := log_add s .info
      ("'" ++ reference_id ++ "' ('" ++ contact.id ++ "'): Contact created successfully")
    (s, contact)
  on_terminal := fun s error =>
    log_add s .info ("'" ++ reference_id ++ "': Error creating Monica contact: " ++ error)
  terminal_exn := fun _ => some (.monicaFetchError "Error creating Monica contact!")

/-- `Monica.create_contact`. -/
def create_contact (reference_id : String) (s : MonicaState)
    (responses : List (ApiResponse MData)) : RunOutcome MData MData :=
  run_api_loop (create_contact_op reference_id) s responses

/-- The field of the note/address `data` dict that the source reads:
`data['contact_id']`. -/
structure OwnedData where
  contact_id : String
deriving Repr, DecidableEq, Inhabited

/-- `Monica.add_note`: loop parameters (success status is 201). -/
def add_note_op (monica_id name : String) : ApiOp MData Unit where
  success_code := 201
  on_success := fun s note =>
    let s := { s with updated_contacts := dict_set s.updated_contacts monica_id true }
    let s := log_add s .info
      ("'" ++ name ++ "' ('" ++ monica_id ++ "'): Note '" ++ note.id ++
        "' created successfully")
    (s, ())
  on_terminal := fun s _ => s
  terminal_exn := fun error =>
    some (.monicaFetchError
      ("'" ++ name ++ "' ('" ++ monica_id ++ "'): Error creating Monica note: " ++ error))

/-- `Monica.add_note`. -/
def add_note (data : OwnedData) (name : String) (s : MonicaState)
    (responses : List (ApiResponse MData)) : RunOutcome MData Unit :=
  run_api_loop (add_note_op data.contact_id name) s responses

/-- `Monica.update_note`: loop parameters (success status is 200). -/
def update_note_op (monica_id name : String) : ApiOp MData Unit where
  success_code := 200
  on_success := fun s note =>
    let s := { s with updated_contacts := dict_set s.updated_contacts monica_id true }
    let s := log_add s .info
      ("'" ++ name ++ "' ('" ++ monica_id ++ "'): Note '" ++ note.id ++
        "' updated successfully")
    (s, ())
  on_terminal := fun s _ => s
  terminal_exn := fun error =>
    some (.monicaFetchError
      ("'" ++ name ++ "' ('" ++ monica_id ++ "'): Error updating Monica note: " ++ error))

/-- `Monica.update_note`. -/
def update_note (note_id : String) (data : OwnedData) (name : String) (s : MonicaState)
    (responses : List (ApiResponse MData)) : RunOutcome MData Unit :=
  run_api_loop (update_note_op data.contact_id name) s responses

/-- `Monica.delete_note`: loop parameters. -/
def delete_note_op (note_id monica_id name : String) : ApiOp MData Unit where
  success_code := 200
  on_success := fun s _ =>
    let s := { s with updated_contacts := dict_set s.updated_contacts monica_id true }
    let s := log_add s .info
      ("'" ++ name ++ "' ('" ++ monica_id ++ "'): Note '" ++ note_id ++
        "' deleted successfully")
    (s, ())
  on_terminal := fun s _ => s
  terminal_exn := fun error =>
    some (.monicaFetchError
      ("'" ++ name ++ "' ('" ++ monica_id ++ "'): Error deleting Monica note: " ++ error))

/-- `Monica.delete_note`. -/
def delete_note (note_id monica_id name : String) (s : MonicaState)
    (responses : List (ApiResponse MData)) : RunOutcome MData Unit :=
  run_api_loop (delete_note_op note_id monica_id name) s responses

/-- The field of the tag `data` dict that the source reads for its log
line: `data['tags']` (a list of tag ids or names). -/
structure TagData where
  tags : List String
deriving Repr, DecidableEq, Inhabited

/-- `Monica.remove_tags`: loop parameters. -/
def remove_tags_op (data : TagData) (monica_id name : String) : ApiOp MData Unit where
  success_code := 200
  on_success := fun s _ =>
    let s := { s with updated_contacts := dict_set s.updated_contacts monica_id true }
    let s := log_add s .info
      ("'" ++ name ++ "' ('" ++ monica_id ++ "'): Label(s) with id " ++
        String.intercalate ", " data.tags ++ " removed successfully")
    (s, ())
  on_terminal := fun s _ => s
  terminal_exn := fun error =>
    some (.monicaFetchError
      ("'" ++ name ++ "' ('" ++ monica_id ++ "'): Error removing Monica labels: " ++ error))

/-- `Monica.remove_tags`. -/
def remove_tags (data : TagData) (monica_id name : String) (s : MonicaState)
    (responses : List (ApiResponse MData)) : RunOutcome MData Unit :=
  run_api_loop (remove_tags_op data monica_id name) s responses

/-- `Monica.add_tags`: loop parameters. -/
def add_tags_op (data : TagData) (monica_id name : String) : ApiOp MData Unit where
  success_code := 200
  on_success := fun s _ =>
    let s := { s with updated_contacts := dict_set s.updated_contacts monica_id true }
    let s := log_add s .info
      ("'" ++ name ++ "' ('" ++ monica_id ++ "'): Labels " ++
        String.intercalate ", " data.tags ++ " assigned successfully")
    (s, ())
  on_terminal := fun s _ => s
  terminal_exn := fun error =>
    some (.monicaFetchError
      ("'" ++ name ++ "' ('" ++ monica_id ++ "'): Error assigning Monica labels: " ++ error))

/-- `Monica.add_tags`. -/
def add_tags (data : TagData) (monica_id name : String) (s : MonicaState)
    (responses : List (ApiResponse MData)) : RunOutcome MData Unit :=
  run_api_loop (add_tags_op data monica_id name) s responses

/-- `Monica.delete_address`: loop parameters. -/
def delete_address_op (address_id monica_id name : String) : ApiOp MData Unit where
  success_code := 200
  on_success := fun s _ =>
    let s := { s with updated_contacts := dict_set s.updated_contacts monica_id true }
    let s := log_add s .info
      ("'" ++ name ++ "' ('" ++ monica_id ++ "'): Address '" ++ address_id ++
        "' deleted successfully")
    (s, ())
  on_terminal := fun s _ => s
  terminal_exn := fun error =>
    some (.monicaFetchError
      ("'" ++ name ++ "' ('" ++ monica_id ++ "'): Error deleting address '" ++
        address_id ++ "': " ++ error))

/-- `Monica.delete_address`. -/
def delete_address (address_id monica_id name : String) (s : MonicaState)
    (responses : List (ApiResponse MData)) : RunOutcome MData Unit :=
  run_api_loop (delete_address_op address_id monica_id name) s responses

/-- `Monica.create_address`: loop parameters (success status is 201). -/
def create_address_op (monica_id name : String) : ApiOp MData Unit where
  success_code := 201
  on_success := fun s address =>
    let s := { s with updated_contacts := dict_set s.updated_contacts monica_id true }
    let s := log_add s .info
      ("'" ++ name ++ "' ('" ++ monica_id ++ "'): Address '" ++ address.id ++
        "' created successfully")
    (s, ())
  on_terminal := fun s _ => s
  terminal_exn := fun error =>
    some (.monicaFetchError
      ("'" ++ name ++ "' ('" ++ monica_id ++ "'): Error creating Monica address: " ++ error))

/-- `Monica.create_address`. -/
def create_address (data : OwnedData) (name : String) (s : MonicaState)
    (responses : List (ApiResponse MData)) : RunOutcome MData Unit :=
  run_api_loop (create_address_op data.contact_id name) s responses

/-- `Monica.create_contact_field`: loop parameters (success status is 201). -/
def create_contact_field_op (monica_id name : String) : ApiOp MData Unit where
  success_code := 201
  on_success := fun s contact_field =>
    let s := { s with updated_contacts := dict_set s.updated_contacts monica_id true }
    let s := log_add s .info
      ("'" ++ name ++ "' ('" ++ monica_id ++ "'): Contact field '" ++ contact_field.id ++
        "' (" ++ contact_field.contact_field_type ++ ") created successfully")
    (s, ())
  on_terminal := fun s _ => s
  terminal_exn := fun error =>
    some (.monicaFetchError
      ("'" ++ name ++ "' ('" ++ monica_id ++ "'): Error creating Monica contact field: " ++
        error))

/-- `Monica.create_contact_field`. -/
def create_contact_field (monica_id : String) (name : String) (s : MonicaState)
    (responses : List (ApiResponse MData)) : RunOutcome MData Unit :=
  run_api_loop (create_contact_field_op monica_id name) s responses

/-- `Monica.delete_contact_field`: loop parameters. -/
def delete_contact_field_op (field_id monica_id name : String) : ApiOp MData Unit where
  success_code := 200
  on_success := fun s _ =>
    let s := { s with updated_contacts := dict_set s.updated_contacts monica_id true }
    let s := log_add s .info
      ("'" ++ name ++ "' ('" ++ monica_id ++ "'): Contact field '" ++ field_id ++
        "' deleted successfully")
    (s, ())
  on_terminal := fun s _ => s
  terminal_exn := fun error =>
    some (.monicaFetchError
      ("'" ++ name ++ "' ('" ++ monica_id ++ "'): Error deleting Monica contact field '" ++
        field_id ++ "': " ++ error))

/-- `Monica.delete_contact_field`. -/
def delete_contact_field (field_id monica_id name : String) (s : MonicaState)
    (responses : List (ApiResponse MData)) : RunOutcome MData Unit :=
  run_api_loop (delete_contact_field_op field_id monica_id name) s responses

/-- Python `str(e)` for the embedded exceptions. -/
def exn_str : PyExn → String
  | .monicaFetchError msg => msg
  | .internalError msg => msg
  | .typeError msg => msg
  | .keyError key => "'" ++ key ++ "'"
  | .indexError => "list index out of range"

/-- The `while True:` loop of `Monica.get_contact`.  On success the single
fetched contact is put through the label filter and the first element of
the filtered list is taken (`[0]`) - an `IndexError` when the filter
rejects it; a terminal error raises `MonicaFetchError(error)`. -/
def get_contact_loop (lf : LabelFilter) :
    MonicaState → List (ApiResponse MData) → RunOutcome MData MData
  | s, [] => .outOfResponses s
  | s, r :: rest =>
    let s1 : MonicaState := { s with api_requests := s.api_requests + 1 }
    if r.status_code == 200 then
      match filter_contacts_by_label lf [r.data] with
      | [] => .exn .indexError s1 rest
      | monica_contact :: _ =>
        .ok monica_contact { s1 with contacts := s1.contacts ++ [monica_contact] } rest
    else if contains_substr slow_down_message r.error_message then
      match r.retry_after with
      | some sec => get_contact_loop lf { s1 with slept := s1.slept ++ [sec] } rest
      | none =>
        .exn (.typeError "int() argument must be a string or a number, not NoneType") s1 rest
    else
      .exn (.monicaFetchError r.error_message) s1 rest

/-- `Monica.get_contact`: returns the contact from the session cache when
present, otherwise fetches it.  The surrounding `try` turns an
`IndexError` (contact rejected by the label filter) into an info log plus
`InternalError`, and any other exception into an error log plus a wrapped
`MonicaFetchError`. -/
def get_contact (lf : LabelFilter) (monica_id : String) (s : MonicaState)
    (responses : List (ApiResponse MData)) : RunOutcome MData MData :=
  let cached :=
    if s.contacts.isEmpty then []
    else s.contacts.filter (fun c => c.id == monica_id)
  match cached with
  | c :: _ => .ok c s responses
  | [] =>
    match get_contact_loop lf s responses with
    | .exn .indexError s2 rest =>
      let msg := "Contact processing of '" ++ monica_id ++ "' not allowed by label filter"
      .exn (.internalError msg) (log_add s2 .info msg) rest
    | .exn e s2 rest =>
      let msg := "Failed to fetch Monica contact '" ++ monica_id ++ "': " ++ exn_str e
      .exn (.monicaFetchError msg) (log_add s2 .error msg) rest
    | other => other

/-- `Monica.update_career`: loop parameters.  The terminal branch only
logs a warning (`terminal_exn` is `none`): the `while True:` loop falls
through and reissues the request. -/
def update_career_op (monica_id name : String) : ApiOp MData Unit where
  success_code := 200
  on_success := fun s contact =>
    let s := { s with updated_contacts := dict_set s.updated_contacts monica_id true }
    let s := log_add s .info
      ("'" ++ name ++ "' ('" ++ monica_id ++ "'): Company and job title updated successfully")
    let s := db_update s ⟨monica_id, some contact.updated_at, none⟩
    (s, ())
  on_terminal := fun s error =>
    log_add s .warning
      ("'" ++ name ++ "' ('" ++ monica_id ++ "'): Error updating Monica contact career info: "
        ++ error)
  terminal_exn := fun _ => none

/-- `Monica.update_career`: first resolves the contact (for its
`complete_name`) via `get_contact`, then runs the `/work` update loop on
the remaining responses. -/
def update_career (lf : LabelFilter) (monica_id : String) (s : MonicaState)
    (responses : List (ApiResponse MData)) : RunOutcome MData Unit :=
  match get_contact lf monica_id s responses with
  | .outOfResponses s2 => .outOfResponses s2
  | .exn e s2 rest => .exn e s2 rest
  | .ok contact s2 rest =>
    run_api_loop (update_career_op monica_id contact.complete_name) s2 rest

/-- The json form built by `MonicaContactUploadForm.__init__`. -/
structure UploadForm where
  first_name : String
  last_name : Option String
  nickname : Option String
  middle_name : Option String
  gender_id : Nat
  birthdate_day : Option String
  birthdate_month : Option String
  birthdate_year : Option String
  birthdate_is_age_based : Bool
  deceased_date_add_reminder : Bool
  birthdate_add_reminder : Bool
  is_birthdate_known : Bool
  is_deceased : Bool
  is_deceased_date_known : Bool
  deceased_date_day : Option Int
  deceased_date_month : Option Int
  deceased_date_year : Option Int
  deceased_date_is_age_based : Option Bool
deriving Repr, DecidableEq, Inhabited

/-- `MonicaContactUploadForm.__init__`: looks the gender type up in
`monica.get_gender_mapping()` with plain dict indexing
(`[gender_type]`, a `KeyError` when the key is absent) and fills the
request form. -/
def monica_contact_upload_form (s : MonicaState)
    (gender_responses : List (ApiResponse (List MGender)))
    (first_name : String) (last_name nick_name middle_name : Option String)
    (gender_type : String)
    (birthdate_day birthdate_month birthdate_year : Option String)
    (is_birthdate_age_based is_birthdate_known is_deceased is_deceased_date_known : Bool)
    (deceased_day deceased_month deceased_year : Option Int)
    (deceased_age_based : Option Bool) (create_reminders : Bool) :
    RunOutcome (List MGender) UploadForm :=
  match get_gender_mapping s gender_responses with
  | .outOfResponses s2 => .outOfResponses s2
  | .exn e s2 rest => .exn e s2 rest
  | .ok gender_mapping s2 rest =>
    match gender_mapping.lookup gender_type with
    | none => .exn (.keyError gender_type) s2 rest
    | some gender_id =>
      .ok
        { first_name := first_name
          last_name := last_name
          nickname := nick_name
          middle_name := middle_name
          gender_id := gender_id
          birthdate_day := birthdate_day
          birthdate_month := birthdate_month
          birthdate_year := birthdate_year
          birthdate_is_age_based := is_birthdate_age_based
          deceased_date_add_reminder := create_reminders
          birthdate_add_reminder := create_reminders
          is_birthdate_known := is_birthdate_known
          is_deceased := is_deceased
          is_deceased_date_known := is_deceased_date_known
          deceased_date_day := deceased_day
          deceased_date_month := deceased_month
          deceased_date_year := deceased_year
          deceased_date_is_age_based := deceased_age_based }
        s2 rest

/-!  Generic lemmas about the shared request loop.  -/

/-- A response the loop treats as a rate limit: not the success status,
and the body carries the slow-down marker text. -/
def is_rate_limited (success_code : Nat) (r : ApiResponse α) : Bool :=
  !(r.status_code == success_code) && contains_substr slow_down_message r.error_message

/-- The first response of the stream that the loop does not retry past:
everything before it is rate-limited. -/
def first_decisive (success_code : Nat) (rs : List (ApiResponse α)) :
    Option (ApiResponse α) :=
  (rs.dropWhile (fun r => is_rate_limited success_code r)).head?

/-- Every response of the stream that carries the slow-down marker also
carries a `Retry-After` value (what a real rate-limiting server sends;
without it `__is_slow_down_error` would die on `int(None)`). -/
def retry_after_present (rs : List (ApiResponse α)) : Bool :=
  rs.all (fun r =>
    !(contains_substr slow_down_message r.error_message) || r.retry_after.isSome)

/-- The operation's terminal branch raises a `MonicaFetchError` (true of
every mutation method except `update_career`). -/
def raises_fetch (op : ApiOp α β) : Prop :=
  ∀ message : String, ∃ m : String, op.terminal_exn message = some (.monicaFetchError m)

/-- The run returned normally iff the first non-rate-limited response has
the success status, and raised a `MonicaFetchError` iff it has another
status. -/
def mutation_classified (success_code : Nat) (rs : List (ApiResponse α))
    (res : RunOutcome α β) : Prop :=
  (res.is_ok = true ↔
    ∃ r, first_decisive success_code rs = some r ∧ r.status_code = success_code)
  ∧ (res.is_fetch_error = true ↔
    ∃ r, first_decisive success_code rs = some r ∧ r.status_code ≠ success_code)

theorem run_api_loop_classified (op : ApiOp α β) (hop : raises_fetch op) :
    ∀ (rs : List (ApiResponse α)), retry_after_present rs = true →
      ∀ s : MonicaState, mutation_classified op.success_code rs (run_api_loop op s rs)
  | [], _, s => by
    constructor <;>
      simp [run_api_loop, first_decisive, RunOutcome.is_ok, RunOutcome.is_fetch_error]
  | r :: rest, hra, s => by
    have hra2 : retry_after_present rest = true := by
      simp only [retry_after_present, List.all_cons, Bool.and_eq_true] at hra
      exact hra.2
    by_cases hsc : (r.status_code == op.success_code) = true
    · have heq : r.status_code = op.success_code := beq_iff_eq.mp hsc
      constructor
      · simp [run_api_loop, hsc, RunOutcome.is_ok, first_decisive, List.dropWhile_cons,
          is_rate_limited, hsc, heq]
      · simp [run_api_loop, hsc, RunOutcome.is_fetch_error, first_decisive,
          List.dropWhile_cons, is_rate_limited, hsc, heq]
    · by_cases hslow : contains_substr slow_down_message r.error_message = true
      · have hsome : r.retry_after.isSome = true := by
          simp only [retry_after_present, List.all_cons, Bool.and_eq_true,
            Bool.or_eq_true, Bool.not_eq_true'] at hra
          rcases hra.1 with h | h
          · exact absurd hslow (by simp [h])
          · exact h
        obtain ⟨sec, hsec⟩ := Option.isSome_iff_exists.mp hsome
        have hdrop : is_rate_limited op.success_code r = true := by
          simp [is_rate_limited, hsc, hslow]
        have step : run_api_loop op s (r :: rest) =
            run_api_loop op
              { s with api_requests := s.api_requests + 1,
                       slept := s.slept ++ [sec] } rest := by
          simp [run_api_loop, hsc, hslow, hsec]
        have ih := run_api_loop_classified op hop rest hra2
          { s with api_requests := s.api_requests + 1, slept := s.slept ++ [sec] }
        rw [step]
        constructor
        · rw [ih.1]
          simp [first_decisive, List.dropWhile_cons, hdrop]
        · rw [ih.2]
          simp [first_decisive, List.dropWhile_cons, hdrop]
      · obtain ⟨m, hm⟩ := hop r.error_message
        have hdrop : is_rate_limited op.success_code r = false := by
          simp [is_rate_limited, hsc, hslow]
        have step : run_api_loop op s (r :: rest) =
            .exn (.monicaFetchError m)
              (op.on_terminal { s with api_requests := s.api_requests + 1 }
                r.error_message) rest := by
          simp [run_api_loop, hsc, hslow, hm]
        rw [step]
        constructor
        · simp [RunOutcome.is_ok, first_decisive, List.dropWhile_cons, hdrop]
          intro h
          exact absurd (beq_iff_eq.mpr h) hsc
        · simp [RunOutcome.is_fetch_error, first_decisive, List.dropWhile_cons, hdrop]
          intro h
          exact hsc (beq_iff_eq.mpr h)

/-- One rate-limited response with its `Retry-After` value: the loop
sleeps and reissues the request, nothing else happens. -/
theorem run_api_loop_slow_step (op : ApiOp α β) (r : ApiResponse α) (sec : Nat)
    (rest : List (ApiResponse α)) (s : MonicaState)
    (hsc : (r.status_code == op.success_code) = false)
    (hslow : contains_substr slow_down_message r.error_message = true)
    (hra : r.retry_after = some sec) :
    run_api_loop op s (r :: rest) =
      run_api_loop op
        { s with api_requests := s.api_requests + 1, slept := s.slept ++ [sec] } rest := by
  simp [run_api_loop, hsc, hslow, hra]

/-- One terminal (non-success, non-rate-limit) response, for an operation
that raises: the loop runs the terminal branch and raises its exception. -/
theorem run_api_loop_terminal_raise (op : ApiOp α β) (r : ApiResponse α)
    (rest : List (ApiResponse α)) (s : MonicaState) (e0 : PyExn)
    (hsc : (r.status_code == op.success_code) = false)
    (hslow : contains_substr slow_down_message r.error_message = false)
    (hexn : op.terminal_exn r.error_message = some e0) :
    run_api_loop op s (r :: rest) =
      .exn e0
        (op.on_terminal { s with api_requests := s.api_requests + 1 } r.error_message)
        rest := by
  simp [run_api_loop, hsc, hslow, hexn]

/-- One terminal response, for an operation that swallows terminal errors
(`update_career`): the loop logs and falls through to the next iteration. -/
theorem run_api_loop_terminal_swallow (op : ApiOp α β) (r : ApiResponse α)
    (rest : List (ApiResponse α)) (s : MonicaState)
    (hsc : (r.status_code == op.success_code) = false)
    (hslow : contains_substr slow_down_message r.error_message = false)
    (hexn : op.terminal_exn r.error_message = none) :
    run_api_loop op s (r :: rest) =
      run_api_loop op
        (op.on_terminal { s with api_requests := s.api_requests + 1 } r.error_message)
        rest := by
  simp [run_api_loop, hsc, hslow, hexn]

/-- On a stream of `n` identical rate-limited responses the loop issues
`n` requests, sleeps `n` times, and is still running: it never gives up. -/
theorem run_api_loop_all_slow (op : ApiOp α β) (r : ApiResponse α) (sec : Nat)
    (hsc : (r.status_code == op.success_code) = false)
    (hslow : contains_substr slow_down_message r.error_message = true)
    (hra : r.retry_after = some sec) :
    ∀ (n : Nat) (s : MonicaState),
      run_api_loop op s (List.replicate n r) =
        .outOfResponses
          { s with api_requests := s.api_requests + n,
                   slept := s.slept ++ List.replicate n sec }
  | 0, s => by simp [run_api_loop]
  | n + 1, s => by
    rw [List.replicate_succ,
      run_api_loop_slow_step op r sec (List.replicate n r) s hsc hslow hra,
      run_api_loop_all_slow op r sec hsc hslow hra n]
    simp [List.replicate_succ]
    omega

/-- When the operation's terminal branch leaves the contact cache alone,
a raised exception means the loop never touched `self.contacts`. -/
theorem run_api_loop_exn_contacts (op : ApiOp α β)
    (hterm : ∀ (s : MonicaState) (m : String), (op.on_terminal s m).contacts = s.contacts) :
    ∀ (rs : List (ApiResponse α)) (s : MonicaState) (e : PyExn) (s2 : MonicaState)
      (rest : List (ApiResponse α)),
      run_api_loop op s rs = .exn e s2 rest → s2.contacts = s.contacts
  | [], s, e, s2, rest => by simp [run_api_loop]
  | r :: rtl, s, e, s2, rest => by
    intro h
    by_cases hsc : (r.status_code == op.success_code) = true
    · simp [run_api_loop, hsc] at h
    · by_cases hslow : contains_substr slow_down_message r.error_message = true
      · cases hra : r.retry_after with
        | some sec =>
          rw [run_api_loop_slow_step op r sec rtl s (by simp [hsc]) hslow hra] at h
          exact run_api_loop_exn_contacts op hterm rtl
            { s with api_requests := s.api_requests + 1, slept := s.slept ++ [sec] }
            e s2 rest h
        | none =>
          have hstep : run_api_loop op s (r :: rtl) =
              .exn (.typeError "int() argument must be a string or a number, not NoneType")
                { s with api_requests := s.api_requests + 1 } rtl := by
            simp [run_api_loop, hsc, hslow, hra]
          rw [hstep] at h
          cases h
          rfl
      · cases hexn : op.terminal_exn r.error_message with
        | some e2 =>
          rw [run_api_loop_terminal_raise op r rtl s e2 (by simp [hsc]) (by simp [hslow])
            hexn] at h
          cases h
          exact hterm _ _
        | none =>
          rw [run_api_loop_terminal_swallow op r rtl s (by simp [hsc]) (by simp [hslow])
            hexn] at h
          have h2 := run_api_loop_exn_contacts op hterm rtl _ e s2 rest h
          rw [h2, hterm]

/-- Under a well-formed rate-limited stream, every exception a
fetch-raising operation can raise is the terminal `MonicaFetchError`. -/
theorem run_api_loop_exn_fetch (op : ApiOp α β) (hop : raises_fetch op) :
    ∀ (rs : List (ApiResponse α)), retry_after_present rs = true →
      ∀ s : MonicaState,
        (run_api_loop op s rs).is_exn = (run_api_loop op s rs).is_fetch_error
  | [], _, s => by simp [run_api_loop, RunOutcome.is_exn, RunOutcome.is_fetch_error]
  | r :: rest, hra, s => by
    have hra2 : retry_after_present rest = true := by
      simp only [retry_after_present, List.all_cons, Bool.and_eq_true] at hra
      exact hra.2
    by_cases hsc : (r.status_code == op.success_code) = true
    · simp [run_api_loop, hsc, RunOutcome.is_exn, RunOutcome.is_fetch_error]
    · by_cases hslow : contains_substr slow_down_message r.error_message = true
      · have hsome : r.retry_after.isSome = true := by
          simp only [retry_after_present, List.all_cons, Bool.and_eq_true,
            Bool.or_eq_true, Bool.not_eq_true'] at hra
          rcases hra.1 with h | h
          · exact absurd hslow (by simp [h])
          · exact h
        obtain ⟨sec, hsec⟩ := Option.isSome_iff_exists.mp hsome
        rw [run_api_loop_slow_step op r sec rest s (by simp [hsc]) hslow hsec]
        exact run_api_loop_exn_fetch op hop rest hra2 _
      · obtain ⟨m, hm⟩ := hop r.error_message
        rw [run_api_loop_terminal_raise op r rest s _ (by simp [hsc]) (by simp [hslow]) hm]
        simp [RunOutcome.is_exn, RunOutcome.is_fetch_error]

/-- An operation that swallows terminal errors (`update_career`) never
raises on a well-formed rate-limited stream. -/
theorem run_api_loop_no_exn_of_swallow (op : ApiOp α β)
    (hop : ∀ message : String, op.terminal_exn message = none) :
    ∀ (rs : List (ApiResponse α)), retry_after_present rs = true →
      ∀ s : MonicaState, (run_api_loop op s rs).is_exn = false
  | [], _, s => by simp [run_api_loop, RunOutcome.is_exn]
  | r :: rest, hra, s => by
    have hra2 : retry_after_present rest = true := by
      simp only [retry_after_present, List.all_cons, Bool.and_eq_true] at hra
      exact hra.2
    by_cases hsc : (r.status_code == op.success_code) = true
    · simp [run_api_loop, hsc, RunOutcome.is_exn]
    · by_cases hslow : contains_substr slow_down_message r.error_message = true
      · have hsome : r.retry_after.isSome = true := by
          simp only [retry_after_present, List.all_cons, Bool.and_eq_true,
            Bool.or_eq_true, Bool.not_eq_true'] at hra
          rcases hra.1 with h | h
          · exact absurd hslow (by simp [h])
          · exact h
        obtain ⟨sec, hsec⟩ := Option.isSome_iff_exists.mp hsome
        rw [run_api_loop_slow_step op r sec rest s (by simp [hsc]) hslow hsec]
        exact run_api_loop_no_exn_of_swallow op hop rest hra2 _
      · rw [run_api_loop_terminal_swallow op r rest s (by simp [hsc]) (by simp [hslow])
          (hop r.error_message)]
        exact run_api_loop_no_exn_of_swallow op hop rest hra2 _

/-!  Concrete fixtures used by witnesses and counterexamples.  -/

/-- A contact carrying one tag. -/
def ada : MData :=
  { id := "7", complete_name := "Ada Lovelace", updated_at := "2021-05-01T10:00:00Z",
    tags := [⟨"friends"⟩], contact_field_type := "email" }

/-- A contact carrying no tags. -/
def bob : MData :=
  { id := "8", complete_name := "Bob Builder", updated_at := "2020-01-01T00:00:00Z",
    tags := [], contact_field_type := "phone" }

/-- A rate-limited response (the many-attempts error with `Retry-After`). -/
def slow_response (sec : Nat) : ApiResponse MData :=
  { status_code := 429, retry_after := some sec,
    error_message := "Too many attempts, please slow down the request", data := default }

/-- A rate-limited response of the `/genders` endpoint. -/
def slow_gender_response (sec : Nat) : ApiResponse (List MGender) :=
  { status_code := 429, retry_after := some sec,
    error_message := "Too many attempts, please slow down the request", data := [] }

/-- A terminal (non-success, non-rate-limit) error response. -/
def terminal_response : ApiResponse MData :=
  { status_code := 500, retry_after := none,
    error_message := "Internal Server Error", data := default }

/-- A 200 response delivering the contact `c`. -/
def ok_contact_response (c : MData) : ApiResponse MData :=
  { status_code := 200, retry_after := none, error_message := "", data := c }

/-- A 201 response delivering the created resource `c`. -/
def created_response (c : MData) : ApiResponse MData :=
  { status_code := 201, retry_after := none, error_message := "", data := c }

/-!  The claims.  -/

/-- C1: the label filter admits a contact iff (the include-set is empty OR
the contact carries at least one included label) AND (the contact carries
no excluded label); in particular with both sets empty every contact is
admitted, and with a non-empty include-set a contact with no labels at
all is rejected. -/
theorem claim_C1_label_filter (lf : LabelFilter) (cs : List MData) (c : MData) :
    (c ∈ filter_contacts_by_label lf cs ↔
      c ∈ cs ∧ ((lf.incl = [] ∨ ∃ t ∈ c.tags, t.name ∈ lf.incl)
        ∧ ∀ t ∈ c.tags, t.name ∉ lf.excl))
    ∧ (lf.incl = [] → lf.excl = [] → filter_contacts_by_label lf cs = cs)
    ∧ (lf.incl ≠ [] → c.tags = [] → c ∉ filter_contacts_by_label lf cs) := by
  obtain ⟨incl, excl⟩ := lf
  refine ⟨?_, ?_, ?_⟩
  · cases incl with
    | cons a as =>
      simp [filter_contacts_by_label, List.mem_filter, List.any_eq_true,
        List.all_eq_true]
    | nil =>
      cases excl with
      | nil => simp [filter_contacts_by_label]
      | cons b bs =>
        simp [filter_contacts_by_label, List.mem_filter, List.all_eq_true]
  · intro h1 h2
    subst h1; subst h2
    simp [filter_contacts_by_label]
  · intro h1 h2
    cases incl with
    | nil => exact absurd rfl h1
    | cons a as =>
      simp [filter_contacts_by_label, List.mem_filter, List.any_eq_true, h2]

/-- Witness for C1: with include-set `friends` and empty exclude-set, a
contact tagged `friends` is admitted and an untagged contact is rejected. -/
theorem claim_C1_label_filter_witness :
    ada ∈ filter_contacts_by_label ⟨["friends"], []⟩ [ada, bob]
      ∧ bob ∉ filter_contacts_by_label ⟨["friends"], []⟩ [ada, bob] := by
  constructor
  · exact (claim_C1_label_filter ⟨["friends"], []⟩ [ada, bob] ada).1.mpr
      ⟨by decide, by decide, by decide⟩
  · exact (claim_C1_label_filter ⟨["friends"], []⟩ [ada, bob] bob).2.2
      (by decide) (by decide)

/-- Filtering an association list with a key predicate that keeps key `k`
does not change the lookup of `k`. -/
theorem lookup_filter_of_keep {β : Type} (d : List (String × β)) (p : String → Bool)
    (k : String) (hk : p k = true) :
    (d.filter (fun kv => p kv.1)).lookup k = d.lookup k := by
  induction d with
  | nil => simp
  | cons kv tl ih =>
    by_cases hkv : (k == kv.1) = true
    · have hp : p kv.1 = true := beq_iff_eq.mp hkv ▸ hk
      simp [List.filter_cons, hp, List.lookup, hkv]
    · rw [Bool.not_eq_true] at hkv
      by_cases hp : p kv.1 = true
      · simp [List.filter_cons, hp, List.lookup, hkv, ih]
      · rw [Bool.not_eq_true] at hp
        simp [List.filter_cons, hp, List.lookup, hkv, ih]

/-- C9: after `update_statistics` no contact id occurs in both the
updated-contacts and the created-contacts dicts; every updated entry whose
id was not created keeps its value; the created-contacts dict is
untouched. -/
theorem claim_C9_update_statistics (s : MonicaState) (k : String) :
    (¬ (dict_contains (update_statistics s).updated_contacts k = true
        ∧ dict_contains s.created_contacts k = true))
    ∧ (dict_contains s.created_contacts k = false →
        (update_statistics s).updated_contacts.lookup k = s.updated_contacts.lookup k)
    ∧ (update_statistics s).created_contacts = s.created_contacts := by
  refine ⟨?_, ?_, rfl⟩
  · rintro ⟨h1, h2⟩
    simp only [update_statistics, dict_contains, List.any_eq_true, List.mem_filter,
      Bool.not_eq_true'] at h1
    obtain ⟨kv, ⟨hmem, hpred⟩, hk⟩ := h1
    rw [beq_iff_eq.mp hk] at hpred
    simp only [dict_contains] at h2
    rw [h2] at hpred
    exact Bool.true_eq_false.mp hpred
  · intro h
    simp only [update_statistics]
    exact lookup_filter_of_keep s.updated_contacts
      (fun key => !(dict_contains s.created_contacts key)) k (by simp [h])

/-- A session state where contact 2 was created and contacts 1 and 2 were
marked updated. -/
def stats_state : MonicaState :=
  { init_state with
    updated_contacts := [("1", true), ("2", true)]
    created_contacts := [("2", true)] }

/-- Witness for C9: the entry of the never-created contact 1 survives
`update_statistics` unchanged. -/
theorem claim_C9_update_statistics_witness :
    (update_statistics stats_state).updated_contacts.lookup "1"
      = stats_state.updated_contacts.lookup "1" :=
  (claim_C9_update_statistics stats_state "1").2.1 (by decide)

/-- C10: if `update_contact` raises a fetch error, the session contact
cache has already been mutated: the final cache is the original one with
every contact of the given id removed (removed before the remote call,
not restored on failure), so no contact with that id remains. -/
theorem claim_C10_update_contact_cache (monica_id : String) (data : UploadData)
    (s : MonicaState) (rs : List (ApiResponse MData)) (e : PyExn) (s2 : MonicaState)
    (rest : List (ApiResponse MData))
    (h : update_contact monica_id data s rs = .exn e s2 rest) :
    s2.contacts = s.contacts.filter (fun c => !(c.id == monica_id))
    ∧ s2.contacts.all (fun c => !(c.id == monica_id)) = true := by
  have hterm : ∀ (st : MonicaState) (m : String),
      ((update_contact_op monica_id
          (data.first_name ++ " " ++ data.last_name)).on_terminal st m).contacts
        = st.contacts := by
    intro st m; rfl
  have h2 := run_api_loop_exn_contacts
    (update_contact_op monica_id (data.first_name ++ " " ++ data.last_name)) hterm rs
    { s with contacts := s.contacts.filter (fun c => !(c.id == monica_id)) }
    e s2 rest h
  refine ⟨h2, ?_⟩
  rw [h2, List.all_eq_true]
  intro c hc
  exact (List.mem_filter.mp hc).2

/-- A session cache holding two contacts. -/
def cache_state : MonicaState := { init_state with contacts := [ada, bob] }

/-- Witness for C10: a failing `update_contact` of contact 7 leaves the
cache without contact 7 (only contact 8 remains). -/
theorem claim_C10_update_contact_cache_witness :
    ((update_contact "7" ⟨"Ada", "Lovelace"⟩ cache_state
        [terminal_response]).final_state).contacts
      = cache_state.contacts.filter (fun c => !(c.id == "7"))
    ∧ ((update_contact "7" ⟨"Ada", "Lovelace"⟩ cache_state
        [terminal_response]).final_state).contacts.all (fun c => !(c.id == "7")) = true :=
  claim_C10_update_contact_cache "7" ⟨"Ada", "Lovelace"⟩ cache_state [terminal_response]
    (.monicaFetchError "Error updating Monica contact!") _ [] rfl

/-- C3: each contact mutation operation (create/update/delete contact and
the note/address/tag/contact-field mutations) returns normally iff the
remote accepted the request with the operation's success status, and
raises a `MonicaFetchError` iff the first non-rate-limited response has a
non-success status: a remote rejection is surfaced as an exception, never
as a silent return. -/
theorem claim_C3_mutations_classified (s : MonicaState) (rs : List (ApiResponse MData))
    (hra : retry_after_present rs = true)
    (monica_id name reference_id note_id address_id field_id : String)
    (data : UploadData) (owned : OwnedData) (tag_data : TagData) :
    mutation_classified 201 rs (create_contact reference_id s rs)
    ∧ mutation_classified 200 rs (update_contact monica_id data s rs)
    ∧ mutation_classified 200 rs (delete_contact monica_id name s rs)
    ∧ mutation_classified 201 rs (add_note owned name s rs)
    ∧ mutation_classified 200 rs (update_note note_id owned name s rs)
    ∧ mutation_classified 200 rs (delete_note note_id monica_id name s rs)
    ∧ mutation_classified 200 rs (remove_tags tag_data monica_id name s rs)
    ∧ mutation_classified 200 rs (add_tags tag_data monica_id name s rs)
    ∧ mutation_classified 200 rs (delete_address address_id monica_id name s rs)
    ∧ mutation_classified 201 rs (create_address owned name s rs)
    ∧ mutation_classified 201 rs (create_contact_field monica_id name s rs)
    ∧ mutation_classified 200 rs (delete_contact_field field_id monica_id name s rs) := by
  refine ⟨?_, ?_, ?_, ?_, ?_, ?_, ?_, ?_, ?_, ?_, ?_, ?_⟩ <;>
    exact run_api_loop_classified _ (fun m => ⟨_, rfl⟩) rs hra _

/-- Witness for C3: a terminal error response makes `create_contact`
raise a fetch error, and a success response makes `update_contact`
return normally. -/
theorem claim_C3_mutations_classified_witness :
    (create_contact "ref" init_state [terminal_response]).is_fetch_error = true
    ∧ (update_contact "7" ⟨"Ada", "Lovelace"⟩ init_state
        [ok_contact_response ada]).is_ok = true := by
  constructor
  · exact ((claim_C3_mutations_classified init_state [terminal_response] (by decide)
        "7" "n" "ref" "n1" "a1" "f1" ⟨"Ada", "Lovelace"⟩ ⟨"7"⟩ ⟨[]⟩).1).2.mpr
      ⟨terminal_response, rfl, by decide⟩
  · exact (((claim_C3_mutations_classified init_state [ok_contact_response ada] (by decide)
        "7" "n" "ref" "n1" "a1" "f1" ⟨"Ada", "Lovelace"⟩ ⟨"7"⟩ ⟨[]⟩).2).1).1.mpr
      ⟨ok_contact_response ada, rfl, rfl⟩

/-- C4: on a terminal (non-rate-limit) error response the `update_career`
request loop logs a warning and raises nothing - it falls through and
reissues the request, and under a well-formed rate-limited stream it
never raises at all; `update_contact` and `delete_contact` raise a
`MonicaFetchError` on the same kind of response. -/
theorem claim_C4_update_career_swallows (monica_id name : String) (data : UploadData)
    (r : ApiResponse MData) (rs : List (ApiResponse MData)) (s : MonicaState)
    (hterm : (r.status_code == 200) = false)
    (hslow : contains_substr slow_down_message r.error_message = false)
    (hra : retry_after_present rs = true) :
    run_api_loop (update_career_op monica_id name) s (r :: rs)
      = run_api_loop (update_career_op monica_id name)
          (log_add { s with api_requests := s.api_requests + 1 } .warning
            ("'" ++ name ++ "' ('" ++ monica_id ++
              "'): Error updating Monica contact career info: " ++ r.error_message)) rs
    ∧ (run_api_loop (update_career_op monica_id name) s (r :: rs)).is_exn = false
    ∧ (update_contact monica_id data s (r :: rs)).is_fetch_error = true
    ∧ (delete_contact monica_id name s (r :: rs)).is_fetch_error = true := by
  refine ⟨?_, ?_, ?_, ?_⟩
  · exact run_api_loop_terminal_swallow (update_career_op monica_id name) r rs s
      hterm hslow rfl
  · rw [run_api_loop_terminal_swallow (update_career_op monica_id name) r rs s
      hterm hslow rfl]
    exact run_api_loop_no_exn_of_swallow (update_career_op monica_id name)
      (fun m => rfl) rs hra _
  · simp only [update_contact]
    rw [run_api_loop_terminal_raise (update_contact_op monica_id
        (data.first_name ++ " " ++ data.last_name)) r rs
        { s with contacts := s.contacts.filter (fun c => !(c.id == monica_id)) }
        (.monicaFetchError "Error updating Monica contact!") hterm hslow rfl]
    rfl
  · simp only [delete_contact]
    rw [run_api_loop_terminal_raise (delete_contact_op monica_id name) r rs s
        (.monicaFetchError "Error deleting Monica contact!") hterm hslow rfl]
    rfl

/-- Witness for C4: on a concrete terminal error response the career loop
raises nothing while `update_contact` raises a fetch error. -/
theorem claim_C4_update_career_swallows_witness :
    (run_api_loop (update_career_op "7" "Ada Lovelace") init_state
        [terminal_response]).is_exn = false
    ∧ (update_contact "7" ⟨"Ada", "Lovelace"⟩ init_state
        [terminal_response]).is_fetch_error = true := by
  have h := claim_C4_update_career_swallows "7" "Ada Lovelace" ⟨"Ada", "Lovelace"⟩
    terminal_response [] init_state (by decide) (by decide) (by decide)
  exact ⟨h.2.1, h.2.2.1⟩

/-- C5 as stated fails on the code: there is no number of consecutive
rate-limit responses after which `get_gender_mapping` gives up with a
terminal error (or any outcome at all) - however long the all-rate-limited
stream, the loop has consumed it entirely and is still retrying. -/
theorem claim_C5_counterexample :
    ¬ ∃ n : Nat,
      ((get_gender_mapping init_state
          (List.replicate n (slow_gender_response 10))).is_ok = true
        ∨ (get_gender_mapping init_state
            (List.replicate n (slow_gender_response 10))).is_exn = true) := by
  rintro ⟨n, h⟩
  have hg : get_gender_mapping init_state (List.replicate n (slow_gender_response 10))
      = run_api_loop get_gender_mapping_op init_state
          (List.replicate n (slow_gender_response 10)) := rfl
  rw [hg, run_api_loop_all_slow get_gender_mapping_op (slow_gender_response 10) 10
    (by decide) (by decide) rfl n init_state] at h
  simp [RunOutcome.is_ok, RunOutcome.is_exn] at h

/-- C5 amended: the retry loop on rate-limit responses is unbounded - after
any number n of consecutive rate-limited responses `get_gender_mapping`
(and likewise the `update_contact` request loop) has issued n requests and
slept the server-specified interval n times, and is still awaiting a
response; it never terminates the retrying on its own. -/
theorem claim_C5_unbounded_retry (n sec : Nat) (s : MonicaState)
    (monica_id name : String) :
    get_gender_mapping init_state (List.replicate n (slow_gender_response sec))
      = .outOfResponses
          { init_state with api_requests := n, slept := List.replicate n sec }
    ∧ run_api_loop (update_contact_op monica_id name) s
        (List.replicate n (slow_response sec))
      = .outOfResponses
          { s with api_requests := s.api_requests + n,
                   slept := s.slept ++ List.replicate n sec } := by
  constructor
  · have hg : get_gender_mapping init_state (List.replicate n (slow_gender_response sec))
        = run_api_loop get_gender_mapping_op init_state
            (List.replicate n (slow_gender_response sec)) := rfl
    rw [hg, run_api_loop_all_slow get_gender_mapping_op (slow_gender_response sec) sec
      rfl rfl rfl n init_state]
    simp [init_state]
  · exact run_api_loop_all_slow (update_contact_op monica_id name) (slow_response sec) sec
      rfl rfl rfl n s

/-- C6: a rate-limited response is never surfaced to the caller: the loop
sleeps the server-specified Retry-After interval and reissues the request
(the run on `r :: rs` equals the run on `rs` from the slept state), and
for the fetch-raising operations any exception observable under a
well-formed stream is the terminal `MonicaFetchError` - only success or a
terminal error is observable. -/
theorem claim_C6_rate_limit_invisible {α β : Type} (op : ApiOp α β)
    (r : ApiResponse α) (sec : Nat) (rs : List (ApiResponse α)) (s : MonicaState)
    (hsc : (r.status_code == op.success_code) = false)
    (hslow : contains_substr slow_down_message r.error_message = true)
    (hsec : r.retry_after = some sec)
    (hop : raises_fetch op) (hra : retry_after_present rs = true) :
    run_api_loop op s (r :: rs)
      = run_api_loop op
          { s with api_requests := s.api_requests + 1, slept := s.slept ++ [sec] } rs
    ∧ (run_api_loop op s (r :: rs)).is_exn = (run_api_loop op s (r :: rs)).is_fetch_error := by
  have hstep := run_api_loop_slow_step op r sec rs s hsc hslow hsec
  refine ⟨hstep, ?_⟩
  rw [hstep]
  exact run_api_loop_exn_fetch op hop rs hra _

/-- Witness for C6: one rate-limited response in front of a success
response is transparent to the `update_contact` loop. -/
theorem claim_C6_rate_limit_invisible_witness :
    run_api_loop (update_contact_op "7" "Ada Lovelace") init_state
        [slow_response 5, ok_contact_response ada]
      = run_api_loop (update_contact_op "7" "Ada Lovelace")
          { init_state with api_requests := 1, slept := [5] }
          [ok_contact_response ada] := by
  have h := claim_C6_rate_limit_invisible (update_contact_op "7" "Ada Lovelace")
    (slow_response 5) 5 [ok_contact_response ada] init_state (by decide) (by decide) rfl
    (fun m => ⟨_, rfl⟩) (by decide)
  exact h.1

/-- One successful response: the loop returns what the operation's
success branch makes of it. -/
theorem run_api_loop_success_step (op : ApiOp α β) (r : ApiResponse α)
    (rest : List (ApiResponse α)) (s : MonicaState)
    (hsc : (r.status_code == op.success_code) = true) :
    run_api_loop op s (r :: rest) =
      .ok (op.on_success { s with api_requests := s.api_requests + 1 } r.data).2
          (op.on_success { s with api_requests := s.api_requests + 1 } r.data).1 rest := by
  simp [run_api_loop, hsc]

/-- A 201 response delivering a created note. -/
def note_created_response : ApiResponse MData :=
  { status_code := 201, retry_after := none, error_message := "",
    data := { id := "n1", complete_name := "", updated_at := "2021-06-01T00:00:00Z",
              tags := [], contact_field_type := "" } }

/-- C2 fails on the code: a successful `add_note` - a remote mutation that
changes the target contact's state - performs no `database.update` call at
all, so the mapping record is not updated with any new timestamp. -/
theorem claim_C2_counterexample :
    (add_note ⟨"7"⟩ "Ada Lovelace" init_state [note_created_response]).is_ok = true
    ∧ ((add_note ⟨"7"⟩ "Ada Lovelace" init_state
        [note_created_response]).final_state).db_updates = [] := by
  exact ⟨rfl, rfl⟩

/-- C2 amended: only the top-level contact update and the career update
record the target's new `updated_at` in the mapping store; every other
successful mutation (note create/update/delete, address create/delete,
tag add/remove, contact-field create/delete) returns normally without any
`database.update` call. -/
theorem claim_C2_timestamp_updates (monica_id name note_id address_id field_id : String)
    (data : UploadData) (owned : OwnedData) (tag_data : TagData) (s : MonicaState)
    (r200 r201 : ApiResponse MData) (rs : List (ApiResponse MData))
    (h200 : r200.status_code = 200) (h201 : r201.status_code = 201) :
    ((update_contact monica_id data s (r200 :: rs)).is_ok = true
      ∧ ((update_contact monica_id data s (r200 :: rs)).final_state).db_updates
        = s.db_updates
          ++ [⟨monica_id, some r200.data.updated_at, some r200.data.complete_name⟩])
    ∧ ((run_api_loop (update_career_op monica_id name) s (r200 :: rs)).is_ok = true
      ∧ ((run_api_loop (update_career_op monica_id name) s
            (r200 :: rs)).final_state).db_updates
        = s.db_updates ++ [⟨monica_id, some r200.data.updated_at, none⟩])
    ∧ ((add_note owned name s (r201 :: rs)).is_ok = true
      ∧ ((add_note owned name s (r201 :: rs)).final_state).db_updates = s.db_updates)
    ∧ ((update_note note_id owned name s (r200 :: rs)).is_ok = true
      ∧ ((update_note note_id owned name s (r200 :: rs)).final_state).db_updates
        = s.db_updates)
    ∧ ((delete_note note_id monica_id name s (r200 :: rs)).is_ok = true
      ∧ ((delete_note note_id monica_id name s (r200 :: rs)).final_state).db_updates
        = s.db_updates)
    ∧ ((add_tags tag_data monica_id name s (r200 :: rs)).is_ok = true
      ∧ ((add_tags tag_data monica_id name s (r200 :: rs)).final_state).db_updates
        = s.db_updates)
    ∧ ((remove_tags tag_data monica_id name s (r200 :: rs)).is_ok = true
      ∧ ((remove_tags tag_data monica_id name s (r200 :: rs)).final_state).db_updates
        = s.db_updates)
    ∧ ((create_address owned name s (r201 :: rs)).is_ok = true
      ∧ ((create_address owned name s (r201 :: rs)).final_state).db_updates
        = s.db_updates)
    ∧ ((delete_address address_id monica_id name s (r200 :: rs)).is_ok = true
      ∧ ((delete_address address_id monica_id name s (r200 :: rs)).final_state).db_updates
        = s.db_updates)
    ∧ ((create_contact_field monica_id name s (r201 :: rs)).is_ok = true
      ∧ ((create_contact_field monica_id name s (r201 :: rs)).final_state).db_updates
        = s.db_updates)
    ∧ ((delete_contact_field field_id monica_id name s (r200 :: rs)).is_ok = true
      ∧ ((delete_contact_field field_id monica_id name s (r200 :: rs)).final_state).db_updates
        = s.db_updates) := by
  have hb0 : (r200.status_code == 200) = true := beq_iff_eq.mpr h200
  have hb1 : (r201.status_code == 201) = true := beq_iff_eq.mpr h201
  refine ⟨⟨?_, ?_⟩, ⟨?_, ?_⟩, ⟨?_, ?_⟩, ⟨?_, ?_⟩, ⟨?_, ?_⟩, ⟨?_, ?_⟩, ⟨?_, ?_⟩,
    ⟨?_, ?_⟩, ⟨?_, ?_⟩, ⟨?_, ?_⟩, ⟨?_, ?_⟩⟩
  all_goals try simp only [update_contact, add_note, update_note, delete_note, add_tags,
    remove_tags, create_address, delete_address, create_contact_field,
    delete_contact_field]
  all_goals first
    | rw [run_api_loop_success_step _ r200 rs _ hb0]; rfl
    | rw [run_api_loop_success_step _ r201 rs _ hb1]; rfl

/-- Witness for C2: a successful contact update writes the new timestamp
to the mapping store while a successful note creation writes nothing. -/
theorem claim_C2_timestamp_updates_witness :
    ((update_contact "7" ⟨"Ada", "Lovelace"⟩ init_state
        [ok_contact_response ada]).final_state).db_updates
      = [⟨"7", some ada.updated_at, some ada.complete_name⟩]
    ∧ ((add_note ⟨"7"⟩ "Ada Lovelace" init_state
        [note_created_response]).final_state).db_updates = [] := by
  have h := claim_C2_timestamp_updates "7" "Ada Lovelace" "n1" "a1" "f1"
    ⟨"Ada", "Lovelace"⟩ ⟨"7"⟩ ⟨[]⟩ init_state (ok_contact_response ada)
    note_created_response [] rfl rfl
  exact ⟨h.1.2, h.2.2.1.2⟩

/-- A session whose cached gender mapping (as a server without an O
gender type would deliver it) has no entry for the default type. -/
def mf_gender_state : MonicaState :=
  { init_state with gender_mapping := [("M", 1), ("F", 2)] }

/-- C7 fails on the code: with a gender mapping that lacks the default
gender type O, constructing the upload form for a contact with the
default gender dies with a KeyError on the gender-to-id lookup
(`monica.get_gender_mapping()[gender_type]`). -/
theorem claim_C7_counterexample :
    monica_contact_upload_form mf_gender_state [] "John" none none none "O"
        none none none false false false false none none none none true
      = .exn (.keyError "O") mf_gender_state [] := by
  rfl

/-- C7 amended: upload-form construction is total except for the gender
lookup - with a cached (non-empty) gender mapping it succeeds iff the
requested gender type is a key of that mapping, and otherwise raises a
KeyError carrying the gender type. -/
theorem claim_C7_gender_lookup (s : MonicaState)
    (hne : s.gender_mapping.isEmpty = false)
    (first_name : String) (last_name nick_name middle_name : Option String)
    (gender_type : String) (bday bmonth byear : Option String)
    (age_based known deceased deceased_known : Bool)
    (dday dmonth dyear : Option Int) (dage : Option Bool) (reminders : Bool) :
    ((monica_contact_upload_form s [] first_name last_name nick_name middle_name
        gender_type bday bmonth byear age_based known deceased deceased_known
        dday dmonth dyear dage reminders).is_ok = true
      ↔ (s.gender_mapping.lookup gender_type).isSome = true)
    ∧ (s.gender_mapping.lookup gender_type = none →
        monica_contact_upload_form s [] first_name last_name nick_name middle_name
            gender_type bday bmonth byear age_based known deceased deceased_known
            dday dmonth dyear dage reminders
          = .exn (.keyError gender_type) s []) := by
  have hg : get_gender_mapping s [] = .ok s.gender_mapping s [] := by
    simp [get_gender_mapping, hne]
  constructor
  · cases hl : s.gender_mapping.lookup gender_type with
    | none => simp [monica_contact_upload_form, hg, hl, RunOutcome.is_ok]
    | some gid => simp [monica_contact_upload_form, hg, hl, RunOutcome.is_ok]
  · intro hl
    simp [monica_contact_upload_form, hg, hl]

/-- Witness for C7: with the M/F mapping, a form for gender type M is
built successfully. -/
theorem claim_C7_gender_lookup_witness :
    (monica_contact_upload_form mf_gender_state [] "John" none none none "M"
        none none none false false false false none none none none true).is_ok = true :=
  (claim_C7_gender_lookup mf_gender_state rfl "John" none none none "M"
    none none none false false false false none none none none true).1.mpr (by decide)

/-- How the Reconciler disposes of one contact after a directory
collaborator call. -/
inductive ContactDisposition where
  | processed
  | skipped (reason : String)
  | failed (reason : String)
  | awaiting
deriving Repr, DecidableEq

/-- Modelled from the spec: the per-contact boundary of the Reconciler
(`SyncHelper.py`, a caller of this module that is not part of the given
sources).  Per the spec, a contact excluded by the label filter is
"treated as absent from that directory for the remainder of the session
(not an error)" and the corresponding `FilterExclusionError` is
"informational, not a failure, contact is skipped", while a remote
rejection (`RemoteRejectedError`) is "terminal for that one contact,
logged, session continues".  `get_contact` signals the filter exclusion
with `InternalError` (its only `InternalError`) and remote rejections
with `MonicaFetchError`; the boundary classifies them accordingly. -/
def reconciler_disposition : RunOutcome MData MData → ContactDisposition
  | .ok .. => .processed
  | .exn (.internalError m) _ _ => .skipped m
  | .exn e _ _ => .failed (exn_str e)
  | .outOfResponses _ => .awaiting

/-- C8: fetching a single contact that the label filter excludes is not an
error: `get_contact` logs the exclusion at info level and signals it with
an `InternalError` distinct from every fetch error, and the per-contact
boundary disposes of the contact as skipped (informational), not as a
failure or a session abort. -/
theorem claim_C8_filter_exclusion_skips (lf : LabelFilter) (monica_id : String)
    (s : MonicaState) (r : ApiResponse MData) (rs : List (ApiResponse MData))
    (hcache : s.contacts.filter (fun c => c.id == monica_id) = [])
    (h200 : (r.status_code == 200) = true)
    (hfiltered : filter_contacts_by_label lf [r.data] = []) :
    get_contact lf monica_id s (r :: rs)
      = .exn
          (.internalError
            ("Contact processing of '" ++ monica_id ++ "' not allowed by label filter"))
          (log_add { s with api_requests := s.api_requests + 1 } .info
            ("Contact processing of '" ++ monica_id ++ "' not allowed by label filter"))
          rs
    ∧ (get_contact lf monica_id s (r :: rs)).is_fetch_error = false
    ∧ reconciler_disposition (get_contact lf monica_id s (r :: rs))
      = .skipped
          ("Contact processing of '" ++ monica_id ++ "' not allowed by label filter") := by
  have hloop : get_contact_loop lf s (r :: rs)
      = .exn .indexError { s with api_requests := s.api_requests + 1 } rs := by
    simp [get_contact_loop, h200, hfiltered]
  have hcached :
      (if s.contacts.isEmpty then ([] : List MData)
        else s.contacts.filter (fun c => c.id == monica_id)) = [] := by
    by_cases he : s.contacts.isEmpty
    · simp [he]
    · simp [he, hcache]
  have hmain : get_contact lf monica_id s (r :: rs)
      = .exn
          (.internalError
            ("Contact processing of '" ++ monica_id ++ "' not allowed by label filter"))
          (log_add { s with api_requests := s.api_requests + 1 } .info
            ("Contact processing of '" ++ monica_id ++ "' not allowed by label filter"))
          rs := by
    simp only [get_contact, hcached, hloop]
  refine ⟨hmain, ?_, ?_⟩
  · rw [hmain]; rfl
  · rw [hmain]; rfl

/-- Witness for C8: contact 9 tagged `work` under include-filter `friends`
is skipped informationally. -/
theorem claim_C8_filter_exclusion_skips_witness :
    reconciler_disposition (get_contact ⟨["friends"], []⟩ "9" init_state
        [ok_contact_response
          { id := "9", complete_name := "Carol", updated_at := "2021-01-01T00:00:00Z",
            tags := [⟨"work"⟩], contact_field_type := "" }])
      = .skipped "Contact processing of '9' not allowed by label filter" :=
  (claim_C8_filter_exclusion_skips ⟨["friends"], []⟩ "9" init_state
    (ok_contact_response
      { id := "9", complete_name := "Carol", updated_at := "2021-01-01T00:00:00Z",
        tags := [⟨"work"⟩], contact_field_type := "" })
    [] rfl rfl (by decide)).2.2

end GMSync
